import Mathlib

/-!
Shallow embedding of the mortuary billing reconciliation engine of this
repository: the functions getFractionalDays, saveChargeHistory and
updateMortuaryCharges of the auto-charge-calculation module, and the
financial-summary aggregate of getAllDeceasedWithFinancials in the invoice
controller.  JavaScript numbers are modelled as exact rationals with an
explicit NaN (Option ℚ with none playing NaN); database column values are
modelled as null, number or string.
-/

namespace Billing

/-- A JavaScript value as read from a database column: null/undefined, a
finite number, or a string. -/
inductive JsVal
  | vnull
  | vnum (q : ℚ)
  | vstr (s : String)
  deriving DecidableEq

/-- JavaScript truthiness for the values above: null, 0 and the empty string
are falsy. -/
def JsVal.truthy : JsVal → Bool
  | .vnull => false
  | .vnum q => q != 0
  | .vstr s => s != ""

/-- JavaScript a || b. -/
def jsOr (a b : JsVal) : JsVal := if a.truthy then a else b

/-- Parse a run of leading decimal digits: value, number of digits, rest. -/
def digitsAux : List Char → ℕ → ℕ → ℕ × ℕ × List Char
  | [], acc, n => (acc, n, [])
  | c :: cs, acc, n =>
    if c.isDigit then digitsAux cs (10 * acc + (c.toNat - 48)) (n + 1)
    else (acc, n, c :: cs)

/-- JavaScript parseFloat on a string, for plain decimal literals (optional
sign, integer digits, optional fractional digits); none is NaN, as for
non-numeric input such as "abc". -/
def parseFloatStr (s : String) : Option ℚ :=
  let cs := s.data.dropWhile (fun c => c == ' ')
  let signed : Bool × List Char :=
    match cs with
    | '-' :: rest => (true, rest)
    | '+' :: rest => (false, rest)
    | _ => (false, cs)
  let ip := digitsAux signed.2 0 0
  let fp : ℕ × ℕ :=
    match ip.2.2 with
    | '.' :: rest =>
      let f := digitsAux rest 0 0
      (f.1, f.2.1)
    | _ => (0, 0)
  if ip.2.1 + fp.2 == 0 then none
  else
    some ((if signed.1 then -1 else 1) * ((ip.1 : ℚ) + (fp.1 : ℚ) / (10 : ℚ) ^ fp.2))

/-- JavaScript parseFloat on a database value: parseFloat(null) is NaN, a
finite number parses to itself, a string is parsed as a decimal literal. -/
def parseFloat : JsVal → Option ℚ
  | .vnull => none
  | .vnum q => some q
  | .vstr s => parseFloatStr s

/-- JavaScript number addition over exact rationals; NaN (none) propagates. -/
def jadd : Option ℚ → Option ℚ → Option ℚ
  | some a, some b => some (a + b)
  | _, _ => none

/-- JavaScript number subtraction; NaN propagates. -/
def jsub : Option ℚ → Option ℚ → Option ℚ
  | some a, some b => some (a - b)
  | _, _ => none

/-- JavaScript number multiplication; NaN propagates. -/
def jmul : Option ℚ → Option ℚ → Option ℚ
  | some a, some b => some (a * b)
  | _, _ => none

/-- JavaScript number division; NaN propagates, and a zero divisor gives a
non-finite result, folded into none. -/
def jdiv : Option ℚ → Option ℚ → Option ℚ
  | some a, some b => if b = 0 then none else some (a / b)
  | _, _ => none

/-- JavaScript strict greater-than on numbers: any comparison against NaN is
false. -/
def jgt : Option ℚ → Option ℚ → Bool
  | some a, some b => decide (b < a)
  | _, _ => false

/-- getFractionalDays(start, end): millisecond difference divided by one day
in milliseconds, clamped below at zero (diff > 0 ? diff : 0).  Timestamps are
milliseconds since the epoch. -/
def getFractionalDays (start stop : ℚ) : ℚ :=
  if (stop - start) / 86400000 > 0 then (stop - start) / 86400000 else 0

/-- MySQL string equality under the default case-insensitive collation,
compared letterwise after lowering. -/
def sqlEqCI (a b : String) : Bool :=
  a.data.map Char.toLower == b.data.map Char.toLower

/-- One row of the deceased table, the columns updateMortuaryCharges
selects. -/
structure Deceased where
  deceased_id : String
  rate_category : Option String
  created_at : ℚ
  date_admitted : Option ℚ
  last_charge_update : Option ℚ
  total_mortuary_charge : JsVal
  currency : Option String
  usd_charge_rate : JsVal
  embalming_cost : JsVal
  status : Option String
  deriving DecidableEq

/-- const cur = currency || 'KES' (null or empty string falls back to KES). -/
def Deceased.cur (d : Deceased) : String :=
  match d.currency with
  | none => "KES"
  | some c => if c = "" then "KES" else c

/-- date_admitted ? new Date(date_admitted) : new Date(created_at). -/
def Deceased.admission (d : Deceased) : ℚ := d.date_admitted.getD d.created_at

/-- last_charge_update ? new Date(last_charge_update) : new Date(created_at). -/
def Deceased.lastUpdate (d : Deceased) : ℚ := d.last_charge_update.getD d.created_at

/-- embalming = parseFloat(embalming_cost || 0). -/
def Deceased.embalming (d : Deceased) : Option ℚ :=
  parseFloat (jsOr d.embalming_cost (.vnum 0))

/-- Daily rate resolution of updateMortuaryCharges: a USD case uses
parseFloat(usd_charge_rate || 130) directly, otherwise premium maps to
5000 KES and anything else to 3000 KES. -/
def baseRate (d : Deceased) : Option ℚ :=
  if d.cur = "USD" then parseFloat (jsOr d.usd_charge_rate (.vnum 130))
  else if d.rate_category = some "premium" then some 5000
  else some 3000

/-- One joined coffin_issue × coffins row. -/
structure CoffinRow where
  rfid : String
  exact_price : JsVal
  coffin_currency : Option String
  price_usd : JsVal
  exchange_rate : Option ℚ
  quantity : Option ℤ
  deriving DecidableEq

/-- c.exchange_rate || 130: a missing or zero rate falls back to 130; any
other rate, including a negative one, is used as-is. -/
def CoffinRow.exRate (c : CoffinRow) : ℚ :=
  match c.exchange_rate with
  | none => 130
  | some r => if r = 0 then 130 else r

/-- parseInt(c.quantity || 1). -/
def CoffinRow.qty (c : CoffinRow) : ℤ :=
  match c.quantity with
  | none => 1
  | some n => if n = 0 then 1 else n

/-- The converted price of one coffin row, following the branches of
updateMortuaryCharges: KES coffins are divided by the exchange rate for a
USD case, USD coffins multiplied by it for a KES case, and a coffin in any
other currency is priced 0. -/
def coffinPrice (cur : String) (c : CoffinRow) : Option ℚ :=
  if c.coffin_currency = some "KES" then
    if cur = "KES" then parseFloat c.exact_price
    else jdiv (parseFloat c.exact_price) (some c.exRate)
  else if c.coffin_currency = some "USD" then
    if cur = "USD" then parseFloat c.price_usd
    else jmul (parseFloat c.price_usd) (some c.exRate)
  else some 0

/-- coffinCharges: sum of price * qty over the case's coffin rows
(the query selects rows with ci.rfid equal to the deceased id). -/
def coffinTotal (cur : String) (rows : List CoffinRow) : Option ℚ :=
  rows.foldl (fun acc c => jadd acc (jmul (coffinPrice cur c) (some (c.qty : ℚ)))) (some 0)

/-- One extra_charges row. -/
structure ExtraCharge where
  deceased_id : String
  amount : JsVal
  status : Option String
  deriving DecidableEq

/-- The rows selected by WHERE deceased_id = ? AND status != 'Cancelled':
a NULL status makes the predicate NULL, so such rows are not returned; the
string comparison follows MySQL's case-insensitive default collation. -/
def extraRowsFor (did : String) (rows : List ExtraCharge) : List ExtraCharge :=
  rows.filter (fun e =>
    (e.deceased_id == did) &&
      (match e.status with
       | none => false
       | some s => !(sqlEqCI s "Cancelled")))

/-- extraCharges: accumulate parseFloat(e.amount || 0) over selected rows. -/
def extraTotal (did : String) (rows : List ExtraCharge) : Option ℚ :=
  (extraRowsFor did rows).foldl
    (fun acc e => jadd acc (parseFloat (jsOr e.amount (.vnum 0)))) (some 0)

/-- One payments row. -/
structure Payment where
  deceased_id : String
  amount : JsVal
  deriving DecidableEq

/-- totalPayments: reduce((sum, r) => sum + parseFloat(r.amount || 0), 0)
over the case's payment rows. -/
def payTotal (did : String) (rows : List Payment) : Option ℚ :=
  (rows.filter (fun p => p.deceased_id == did)).foldl
    (fun acc p => jadd acc (parseFloat (jsOr p.amount (.vnum 0)))) (some 0)

/-- Everything one iteration of the updateMortuaryCharges loop computes for a
case at wall-clock time now (milliseconds since epoch). -/
structure CaseResult where
  totalDays : ℚ
  totalStorage : Option ℚ
  incrementalDays : ℚ
  incrementalCharge : Option ℚ
  coffinCharges : Option ℚ
  extraCharges : Option ℚ
  embalming : Option ℚ
  totalPayments : Option ℚ
  newTotal : Option ℚ
  balance : Option ℚ
  deriving DecidableEq

/-- The per-case computation of updateMortuaryCharges: cumulative storage
from admission, incremental storage from the last update (audit only),
coffin, extra, embalming and payment sums, the re-summed total, and the
balance. -/
def reconcileCase (d : Deceased) (coffins : List CoffinRow)
    (extras : List ExtraCharge) (pays : List Payment) (now : ℚ) : CaseResult :=
  let rate := baseRate d
  let totalDays := getFractionalDays d.admission now
  let totalStorage := jmul (some totalDays) rate
  let incDays := getFractionalDays d.lastUpdate now
  let incCharge := jmul (some incDays) rate
  let coffin := coffinTotal d.cur coffins
  let extra := extraTotal d.deceased_id extras
  let emb := d.embalming
  let pay := payTotal d.deceased_id pays
  let newTotal := jadd (jadd (jadd totalStorage coffin) extra) emb
  { totalDays := totalDays
    totalStorage := totalStorage
    incrementalDays := incDays
    incrementalCharge := incCharge
    coffinCharges := coffin
    extraCharges := extra
    embalming := emb
    totalPayments := pay
    newTotal := newTotal
    balance := jsub newTotal pay }

/-- Left-pad a natural number's decimal rendering to four digits. -/
def pad4 (n : ℕ) : String :=
  let s := toString n
  String.mk (List.replicate (4 - s.length) '0') ++ s

/-- JavaScript x.toFixed(4): round to four decimal places and render. -/
def toFixed4 (q : ℚ) : String :=
  let n : ℤ := round (q * 10000)
  let m := n.natAbs
  (if n < 0 then "-" else "") ++ toString (m / 10000) ++ "." ++ pad4 (m % 10000)

/-- A charge_history row as inserted by saveChargeHistory. -/
structure HistoryRow where
  deceased_id : String
  charge_type : String
  amount : Option ℚ
  currency : String
  description : String
  deriving DecidableEq

/-- A write the reconcile loop issues, in program order: the charge-history
insert or the deceased totals update. -/
inductive DbWrite
  | insertHistory (row : HistoryRow)
  | updateDeceased (deceased_id : String) (total balance : Option ℚ)
      (last_charge_update : ℚ)
  deriving DecidableEq

/-- The daily_storage audit row updateMortuaryCharges builds for a case: the
incremental charge and a description carrying the fractional day count
rendered with toFixed(4). -/
def auditRow (d : Deceased) (coffins : List CoffinRow) (extras : List ExtraCharge)
    (pays : List Payment) (now : ℚ) : HistoryRow :=
  let r := reconcileCase d coffins extras pays now
  { deceased_id := d.deceased_id
    charge_type := "daily_storage"
    amount := r.incrementalCharge
    currency := d.cur
    description := "Daily mortuary charge (" ++ toFixed4 r.incrementalDays ++ " days)" }

/-- The UPDATE deceased SET total_mortuary_charge, last_charge_update,
balance write for a case. -/
def updateWrite (d : Deceased) (coffins : List CoffinRow) (extras : List ExtraCharge)
    (pays : List Payment) (now : ℚ) : DbWrite :=
  let r := reconcileCase d coffins extras pays now
  .updateDeceased d.deceased_id r.newTotal r.balance now

/-- The writes one loop iteration issues for a case, in program order: the
audit insert only when incrementalCharge > 0.01, then the totals update. -/
def caseWrites (d : Deceased) (coffins : List CoffinRow) (extras : List ExtraCharge)
    (pays : List Payment) (now : ℚ) : List DbWrite :=
  (if jgt (reconcileCase d coffins extras pays now).incrementalCharge (some (1 / 100)) then
    [.insertHistory (auditRow d coffins extras pays now)]
  else []) ++ [updateWrite d coffins extras pays now]

/-- The persistent state the reconcile loop touches: the append-only
charge_history table and the written deceased totals (newest first). -/
structure DbState where
  history : List HistoryRow
  totals : List (String × Option ℚ × Option ℚ × ℚ)
  deriving DecidableEq

/-- Apply one successful write to the database state. -/
def applyWrite (st : DbState) : DbWrite → DbState
  | .insertHistory row => { st with history := st.history ++ [row] }
  | .updateDeceased did t b lu => { st with totals := (did, t, b, lu) :: st.totals }

/-- Run writes in order; fails says which writes the database rejects.  The
awaited query throws on the first failing write, so execution stops there;
the Bool reports whether all writes succeeded. -/
def runWrites (fails : DbWrite → Bool) : DbState → List DbWrite → DbState × Bool
  | st, [] => (st, true)
  | st, w :: ws =>
    if fails w then (st, false) else runWrites fails (applyWrite st w) ws

/-- One eligible case together with the source rows its queries return. -/
structure CaseBundle where
  d : Deceased
  coffins : List CoffinRow
  extras : List ExtraCharge
  pays : List Payment
  deriving DecidableEq

/-- The writes of one case bundle. -/
def CaseBundle.writes (c : CaseBundle) (now : ℚ) : List DbWrite :=
  caseWrites c.d c.coffins c.extras c.pays now

/-- The reconcile loop over a batch of cases.  The try/catch of
updateMortuaryCharges wraps the whole for-loop, so the first failing write
aborts the remaining cases.  Returns the final state and the ids of the
cases whose iteration ran to completion, in order. -/
def runBatch (fails : DbWrite → Bool) (now : ℚ) :
    DbState → List CaseBundle → DbState × List String
  | st, [] => (st, [])
  | st, c :: cs =>
    let step := runWrites fails st (c.writes now)
    if step.2 then
      let rest := runBatch fails now step.1 cs
      (rest.1, c.d.deceased_id :: rest.2)
    else (step.1, [])

/-- The batch query's eligibility filter:
created_at IS NOT NULL AND (status IS NULL OR status != 'Complete'). -/
def eligible (d : Deceased) : Bool :=
  match d.status with
  | none => true
  | some s => !(sqlEqCI s "Complete")

/-- SQL numeric view of a stored value: a decimal column holds a number or
NULL; aggregate functions ignore NULL. -/
def sqlNum : JsVal → Option ℚ
  | .vnum q => some q
  | _ => none

/-- COALESCE(SUM(DISTINCT ec.amount), 0) over the case's extra_charges rows
in getAllDeceasedWithFinancials: no status filter, distinct non-null amounts
only. -/
def finExtraTotal (rows : List ExtraCharge) : ℚ :=
  ((rows.map (fun e => sqlNum e.amount)).filterMap id).dedup.sum

/-- COALESCE(SUM(DISTINCT p.amount), 0) over the case's payments rows in
getAllDeceasedWithFinancials. -/
def finPayTotal (rows : List Payment) : ℚ :=
  ((rows.map (fun p => sqlNum p.amount)).filterMap id).dedup.sum

/-- The total_charges column of getAllDeceasedWithFinancials:
COALESCE(total_mortuary_charge, 0) plus the extra-charges aggregate. -/
def finTotalCharges (total_mortuary_charge : Option ℚ) (extras : List ExtraCharge) : ℚ :=
  total_mortuary_charge.getD 0 + finExtraTotal extras

/-- The balance column of getAllDeceasedWithFinancials. -/
def finBalance (total_mortuary_charge : Option ℚ) (extras : List ExtraCharge)
    (pays : List Payment) : ℚ :=
  finTotalCharges total_mortuary_charge extras - finPayTotal pays

/-- The case row after the reconcile pass persisted its update at time now:
total_mortuary_charge, last_charge_update and balance are the only columns
written (a NaN total is stored as NULL). -/
def afterUpdate (d : Deceased) (coffins : List CoffinRow) (extras : List ExtraCharge)
    (pays : List Payment) (now : ℚ) : Deceased :=
  { d with
    total_mortuary_charge :=
      match (reconcileCase d coffins extras pays now).newTotal with
      | some q => .vnum q
      | none => .vnull
    last_charge_update := some now }

/-- The history rows among a list of writes, in order. -/
def historyWrites (ws : List DbWrite) : List HistoryRow :=
  ws.filterMap (fun w =>
    match w with
    | .insertHistory row => some row
    | _ => none)

/-! ### Concrete rows used by witnesses and counterexamples -/

/-- A plain KES standard-rate case admitted at the epoch. -/
def dStd : Deceased :=
  { deceased_id := "A", rate_category := none, created_at := 0, date_admitted := some 0,
    last_charge_update := some 0, total_mortuary_charge := .vnull, currency := none,
    usd_charge_rate := .vnull, embalming_cost := .vnull, status := none }

/-- A USD case with a stored daily rate of 130. -/
def dUsd : Deceased :=
  { dStd with
    deceased_id := "U"
    currency := some "USD"
    usd_charge_rate := .vnum 130 }

/-- A USD case with no stored daily rate. -/
def dUsdNull : Deceased :=
  { dStd with
    deceased_id := "UN"
    currency := some "USD" }

/-- A premium-category KES case. -/
def dPrem : Deceased :=
  { dStd with
    deceased_id := "P"
    rate_category := some "premium" }

/-- A case admitted one day in the future of the reconcile instant. -/
def dFuture : Deceased :=
  { dStd with
    deceased_id := "F"
    date_admitted := some 86400000
    last_charge_update := some 86400000 }

/-- A second plain case, iterated after dStd in the same batch. -/
def dB : Deceased :=
  { dStd with deceased_id := "B" }

/-- dStd with no related rows, as a batch element. -/
def bundleA : CaseBundle := ⟨dStd, [], [], []⟩

/-- dB with no related rows, as a batch element. -/
def bundleB : CaseBundle := ⟨dB, [], [], []⟩

/-- A fault model where only the totals update of case A is rejected. -/
def failUpdA : DbWrite → Bool
  | .updateDeceased did _ _ _ => did == "A"
  | _ => false

/-- A cancelled 500-unit extra charge of case X. -/
def cancelled500 : ExtraCharge := ⟨"X", .vnum 500, some "Cancelled"⟩

/-- An extra charge of case A whose stored amount is the non-numeric string
abc. -/
def badAmountRow : ExtraCharge := ⟨"A", .vstr "abc", some "pending"⟩

/-- A KES-priced coffin of case X with a zero stored exchange rate. -/
def rate0Coffin : CoffinRow :=
  { rfid := "X", exact_price := .vnum 1300, coffin_currency := some "KES",
    price_usd := .vnull, exchange_rate := some 0, quantity := some 1 }

/-- The same coffin with a negative stored exchange rate. -/
def negRateCoffin : CoffinRow :=
  { rate0Coffin with exchange_rate := some (-130) }

/-- The same coffin with no stored exchange rate. -/
def rateNoneCoffin : CoffinRow :=
  { rate0Coffin with exchange_rate := none }

/-! ### General lemmas about the accrual calculator -/

theorem getFractionalDays_nonneg (s t : ℚ) : 0 ≤ getFractionalDays s t := by
  unfold getFractionalDays
  split
  · next h => exact le_of_lt h
  · exact le_rfl

theorem getFractionalDays_of_le (s t : ℚ) (h : s ≤ t) :
    getFractionalDays s t = (t - s) / 86400000 := by
  unfold getFractionalDays
  split
  · rfl
  · next hn =>
    have h0 : 0 ≤ (t - s) / 86400000 :=
      div_nonneg (by linarith) (by norm_num)
    have h1 : (t - s) / 86400000 ≤ 0 := not_lt.mp hn
    linarith

theorem getFractionalDays_eq_zero (s t : ℚ) (h : t ≤ s) :
    getFractionalDays s t = 0 := by
  unfold getFractionalDays
  split
  · next hp =>
    have h1 : (t - s) / 86400000 ≤ 0 :=
      div_nonpos_of_nonpos_of_nonneg (by linarith) (by norm_num)
    linarith
  · rfl

theorem getFractionalDays_split (a t1 t2 : ℚ) (h1 : a ≤ t1) (h2 : t1 ≤ t2) :
    getFractionalDays a t2 = getFractionalDays a t1 + getFractionalDays t1 t2 := by
  rw [getFractionalDays_of_le a t2 (le_trans h1 h2), getFractionalDays_of_le a t1 h1,
    getFractionalDays_of_le t1 t2 h2]
  ring

/-! ### Small lemmas about NaN propagation -/

theorem jadd_none_right (x : Option ℚ) : jadd x none = none := by
  cases x <;> rfl

theorem jadd_none_left (x : Option ℚ) : jadd none x = none := by
  cases x <;> rfl

theorem jsub_none_left (x : Option ℚ) : jsub none x = none := by
  cases x <;> rfl

/-! ### Claim C1 -/

/-- Claim C1: the totals update that updateMortuaryCharges persists for a
case carries balance equal to the persisted total charge minus the sum of
that case's payment amounts, and it is the final write of the case's
iteration. -/
theorem C1_balance_identity (d : Deceased) (coffins : List CoffinRow)
    (extras : List ExtraCharge) (pays : List Payment) (now : ℚ) :
    (∃ pre, caseWrites d coffins extras pays now =
        pre ++ [updateWrite d coffins extras pays now]) ∧
    updateWrite d coffins extras pays now =
      .updateDeceased d.deceased_id
        (reconcileCase d coffins extras pays now).newTotal
        (jsub (reconcileCase d coffins extras pays now).newTotal
          (payTotal d.deceased_id pays))
        now :=
  ⟨⟨_, rfl⟩, rfl⟩

/-! ### Claim C4 -/

/-- Claim C4: getFractionalDays never returns a negative value and returns
exactly 0 whenever the as-of time is at or before the start time, so the
storage component of a reconciliation is nonnegative whenever the resolved
daily rate is. -/
theorem C4_storage_nonneg :
    (∀ s t : ℚ, 0 ≤ getFractionalDays s t) ∧
    (∀ s t : ℚ, t ≤ s → getFractionalDays s t = 0) ∧
    (∀ (d : Deceased) (coffins : List CoffinRow) (extras : List ExtraCharge)
        (pays : List Payment) (now : ℚ) (r : ℚ),
      baseRate d = some r → 0 ≤ r →
      ∃ q : ℚ, (reconcileCase d coffins extras pays now).totalStorage = some q ∧ 0 ≤ q) := by
  refine ⟨getFractionalDays_nonneg, getFractionalDays_eq_zero, ?_⟩
  intro d coffins extras pays now r hr h0
  refine ⟨getFractionalDays d.admission now * r,
    ?_, mul_nonneg (getFractionalDays_nonneg _ _) h0⟩
  show jmul (some (getFractionalDays d.admission now)) (baseRate d) = _
  rw [hr]
  rfl

/-- Witness for C4, at the case admitted one day after the reconcile
instant: the elapsed days are 0 and the storage component is nonnegative. -/
theorem C4_witness :
    getFractionalDays 86400000 0 = 0 ∧
    ∃ q : ℚ, (reconcileCase dFuture [] [] [] 0).totalStorage = some q ∧ 0 ≤ q :=
  ⟨C4_storage_nonneg.2.1 86400000 0 (by norm_num),
   C4_storage_nonneg.2.2 dFuture [] [] [] 0 3000
    (by simp [baseRate, dFuture, dStd, Deceased.cur]) (by norm_num)⟩

/-! ### Claim C3 -/

/-- Claim C3: the daily rate resolves to 5000 KES for a premium case and
3000 KES for any other category, except that a USD case uses the stored usd
rate directly (130 when unset); the storage charge is the fractional days
since admission times that rate; and the USD case with rate 130 reconciled
at 1.5 days yields a total charge of 195. -/
theorem C3_rate_resolution :
    (∀ d : Deceased, d.cur ≠ "USD" → d.rate_category = some "premium" →
      baseRate d = some 5000) ∧
    (∀ d : Deceased, d.cur ≠ "USD" → d.rate_category ≠ some "premium" →
      baseRate d = some 3000) ∧
    (∀ d : Deceased, d.cur = "USD" → d.usd_charge_rate = .vnull →
      baseRate d = some 130) ∧
    (∀ (d : Deceased) (r : ℚ), d.cur = "USD" → d.usd_charge_rate = .vnum r → r ≠ 0 →
      baseRate d = some r) ∧
    (∀ (d : Deceased) (coffins : List CoffinRow) (extras : List ExtraCharge)
        (pays : List Payment) (now : ℚ),
      (reconcileCase d coffins extras pays now).totalStorage =
        jmul (some (getFractionalDays d.admission now)) (baseRate d)) ∧
    (reconcileCase dUsd [] [] [] 129600000).newTotal = some 195 := by
  refine ⟨?_, ?_, ?_, ?_, fun d coffins extras pays now => rfl, ?_⟩
  · intro d hcur hcat
    simp [baseRate, hcur, hcat]
  · intro d hcur hcat
    simp [baseRate, hcur, hcat]
  · intro d hcur hrate
    simp [baseRate, hcur, hrate, jsOr, JsVal.truthy, parseFloat]
  · intro d r hcur hrate hr
    simp [baseRate, hcur, hrate, jsOr, JsVal.truthy, parseFloat, hr]
  · simp [reconcileCase, dUsd, dStd, getFractionalDays, baseRate, Deceased.cur,
      Deceased.admission, Deceased.lastUpdate, Deceased.embalming, jsOr, JsVal.truthy,
      parseFloat, jadd, jmul, jsub, coffinTotal, extraTotal, extraRowsFor, payTotal]
    norm_num

/-- Witness for C3 at concrete cases: premium 5000, standard 3000, USD with
no stored rate 130, USD with stored rate 130, and the 1.5-day scenario. -/
theorem C3_witness :
    baseRate dPrem = some 5000 ∧
    baseRate dStd = some 3000 ∧
    baseRate dUsdNull = some 130 ∧
    baseRate dUsd = some 130 ∧
    (reconcileCase dUsd [] [] [] 129600000).totalStorage =
      jmul (some (getFractionalDays dUsd.admission 129600000)) (baseRate dUsd) :=
  ⟨C3_rate_resolution.1 dPrem (by simp [Deceased.cur, dPrem, dStd]) rfl,
   C3_rate_resolution.2.1 dStd (by simp [Deceased.cur, dStd]) (by simp [dStd]),
   C3_rate_resolution.2.2.1 dUsdNull (by simp [Deceased.cur, dUsdNull, dStd]) rfl,
   C3_rate_resolution.2.2.2.1 dUsd 130 (by simp [Deceased.cur, dUsd, dStd]) rfl
     (by norm_num),
   C3_rate_resolution.2.2.2.2.1 dUsd [] [] [] 129600000⟩

/-! ### Claim C5 -/

/-- Counterexample to C5: the aggregates of getAllDeceasedWithFinancials
carry no status filter, so a cancelled 500-unit extra charge contributes its
full amount to the total_charges and balance columns instead of 0. -/
theorem C5_counterexample :
    cancelled500.status = some "Cancelled" ∧
    finTotalCharges (some 0) [cancelled500] = 500 ∧
    finBalance (some 0) [cancelled500] [] = 500 := by
  refine ⟨rfl, ?_, ?_⟩ <;>
    simp [finBalance, finTotalCharges, finExtraTotal, finPayTotal, cancelled500,
      sqlNum, List.dedup_cons_of_not_mem]

/-- Claim C5 amended: updateMortuaryCharges does exclude cancelled rows
(under the case-insensitive SQL comparison) from the extra-charges total it
persists, regardless of amount, but the extra-charge aggregate of
getAllDeceasedWithFinancials includes cancelled rows. -/
theorem C5_amended :
    (∀ (did : String) (rows : List ExtraCharge) (e : ExtraCharge) (s : String),
      e.status = some s → sqlEqCI s "Cancelled" = true →
      extraTotal did (e :: rows) = extraTotal did rows) ∧
    finTotalCharges (some 0) [cancelled500] = 500 := by
  constructor
  · intro did rows e s hs hc
    unfold extraTotal extraRowsFor
    rw [List.filter_cons]
    simp [hs, hc]
  · simp [finTotalCharges, finExtraTotal, cancelled500, sqlNum,
      List.dedup_cons_of_not_mem]

/-- Witness for C5: dropping the concrete cancelled 500-unit row leaves the
reconcile extra-charges total unchanged, while the financial-summary total
includes it. -/
theorem C5_witness :
    extraTotal "X" [cancelled500] = extraTotal "X" [] ∧
    finTotalCharges (some 0) [cancelled500] = 500 :=
  ⟨C5_amended.1 "X" [] cancelled500 "Cancelled" rfl (by simp [sqlEqCI]), C5_amended.2⟩

/-! ### Evaluation helpers for the concrete case dStd -/

theorem baseRate_dStd : baseRate dStd = some 3000 := by
  simp [baseRate, dStd, Deceased.cur]

theorem gfd_one_day : getFractionalDays 0 86400000 = 1 := by
  rw [getFractionalDays_of_le 0 86400000 (by norm_num)]
  norm_num

theorem incCharge_dStd_day :
    (reconcileCase dStd [] [] [] 86400000).incrementalCharge = some 3000 := by
  show jmul (some (getFractionalDays dStd.lastUpdate 86400000)) (baseRate dStd) = some 3000
  have h : dStd.lastUpdate = 0 := rfl
  rw [h, gfd_one_day, baseRate_dStd]
  simp [jmul]

theorem jgt_dStd_day :
    jgt (reconcileCase dStd [] [] [] 86400000).incrementalCharge (some (1 / 100)) = true := by
  rw [incCharge_dStd_day]
  simp only [jgt]
  rw [decide_eq_true_eq]
  norm_num

theorem caseWrites_dStd_day :
    caseWrites dStd [] [] [] 86400000 =
      [.insertHistory (auditRow dStd [] [] [] 86400000),
        updateWrite dStd [] [] [] 86400000] := by
  unfold caseWrites
  rw [jgt_dStd_day]
  simp

theorem runWrites_dStd_day_fails :
    runWrites failUpdA ⟨[], []⟩ (caseWrites dStd [] [] [] 86400000) =
      (⟨[auditRow dStd [] [] [] 86400000], []⟩, false) := by
  rw [caseWrites_dStd_day]
  simp [runWrites, failUpdA, applyWrite, updateWrite, dStd]

/-! ### Claim C2 -/

/-- Counterexample to C2: in a two-case batch where the database rejects the
first case's totals update, the second case is never reconciled — the
processed list is empty and no totals row is written for case B, because
the try/catch wraps the whole loop rather than each case. -/
theorem C2_counterexample :
    (runBatch failUpdA 86400000 ⟨[], []⟩ [bundleA, bundleB]).2 = [] ∧
    (runBatch failUpdA 86400000 ⟨[], []⟩ [bundleA, bundleB]).1.totals = [] := by
  have h : runBatch failUpdA 86400000 ⟨[], []⟩ [bundleA, bundleB] =
      (⟨[auditRow dStd [] [] [] 86400000], []⟩, []) := by
    simp [runBatch, CaseBundle.writes, bundleA, runWrites_dStd_day_fails]
  rw [h]
  exact ⟨rfl, rfl⟩

/-- Claim C2 amended: a failure while processing a case is caught only at
the batch boundary: when the head case's writes fail, iteration stops and
none of the remaining cases is reconciled in that run. -/
theorem C2_amended (fails : DbWrite → Bool) (now : ℚ) (st : DbState)
    (c : CaseBundle) (cs : List CaseBundle)
    (h : (runWrites fails st (c.writes now)).2 = false) :
    runBatch fails now st (c :: cs) =
      ((runWrites fails st (c.writes now)).1, []) := by
  simp [runBatch, h]

/-- Witness for C2: the amended statement applied to the concrete failing
batch. -/
theorem C2_witness :
    runBatch failUpdA 86400000 ⟨[], []⟩ (bundleA :: [bundleB]) =
      ((runWrites failUpdA ⟨[], []⟩ (bundleA.writes 86400000)).1, []) :=
  C2_amended failUpdA 86400000 ⟨[], []⟩ bundleA [bundleB]
    (by rw [show bundleA.writes 86400000 = caseWrites dStd [] [] [] 86400000 from rfl,
         runWrites_dStd_day_fails])

/-! ### Claim C10 -/

/-- Claim C10: within one case's iteration the daily_storage audit insert is
issued before the totals update; when the update write is rejected, the
audit row is already persisted and survives while the case's totals are
untouched. -/
theorem C10_audit_before_update (d : Deceased) (coffins : List CoffinRow)
    (extras : List ExtraCharge) (pays : List Payment) (now : ℚ)
    (st : DbState) (fails : DbWrite → Bool)
    (hinc : jgt (reconcileCase d coffins extras pays now).incrementalCharge
      (some (1 / 100)) = true)
    (hins : fails (.insertHistory (auditRow d coffins extras pays now)) = false)
    (hupd : fails (updateWrite d coffins extras pays now) = true) :
    caseWrites d coffins extras pays now =
      [.insertHistory (auditRow d coffins extras pays now),
        updateWrite d coffins extras pays now] ∧
    runWrites fails st (caseWrites d coffins extras pays now) =
      ({ st with history := st.history ++ [auditRow d coffins extras pays now] }, false) := by
  have hw : caseWrites d coffins extras pays now =
      [.insertHistory (auditRow d coffins extras pays now),
        updateWrite d coffins extras pays now] := by
    unfold caseWrites
    rw [hinc]
    simp
  refine ⟨hw, ?_⟩
  rw [hw]
  simp [runWrites, hins, hupd, applyWrite]

/-- Witness for C10: the concrete case whose one-day incremental charge is
3000 with a database rejecting its totals update — the audit row persists
and the totals table stays empty. -/
theorem C10_witness :
    runWrites failUpdA ⟨[], []⟩ (caseWrites dStd [] [] [] 86400000) =
      (⟨[auditRow dStd [] [] [] 86400000], []⟩, false) :=
  (C10_audit_before_update dStd [] [] [] 86400000 ⟨[], []⟩ failUpdA
    jgt_dStd_day rfl rfl).2

/-! ### Claim C6 -/

theorem incCharge_dStd_small :
    (reconcileCase dStd [] [] [] (144 / 5)).incrementalCharge = some (1 / 1000) := by
  show jmul (some (getFractionalDays dStd.lastUpdate (144 / 5))) (baseRate dStd) =
    some (1 / 1000)
  have h : dStd.lastUpdate = 0 := rfl
  rw [h, getFractionalDays_of_le 0 (144 / 5) (by norm_num), baseRate_dStd]
  simp only [jmul]
  norm_num

theorem jgt_dStd_small :
    jgt (reconcileCase dStd [] [] [] (144 / 5)).incrementalCharge (some (1 / 100)) = false := by
  rw [incCharge_dStd_small]
  simp only [jgt]
  rw [decide_eq_false_iff_not]
  norm_num

theorem incCharge_dStd_big :
    (reconcileCase dStd [] [] [] 1440000).incrementalCharge = some 50 := by
  show jmul (some (getFractionalDays dStd.lastUpdate 1440000)) (baseRate dStd) = some 50
  have h : dStd.lastUpdate = 0 := rfl
  rw [h, getFractionalDays_of_le 0 1440000 (by norm_num), baseRate_dStd]
  simp only [jmul]
  norm_num

theorem jgt_dStd_big :
    jgt (reconcileCase dStd [] [] [] 1440000).incrementalCharge (some (1 / 100)) = true := by
  rw [incCharge_dStd_big]
  simp only [jgt]
  rw [decide_eq_true_eq]
  norm_num

/-- Claim C6: a reconciliation pass appends the daily_storage history entry
exactly when the incremental storage charge exceeds 0.01 currency units, at
most one entry per pass, with a description carrying the fractional day
count; an incremental charge of 0.001 units yields no entry and one of 50
units yields exactly one. -/
theorem C6_audit_threshold :
    (∀ (d : Deceased) (coffins : List CoffinRow) (extras : List ExtraCharge)
        (pays : List Payment) (now : ℚ),
      (historyWrites (caseWrites d coffins extras pays now) =
          [auditRow d coffins extras pays now] ↔
        jgt (reconcileCase d coffins extras pays now).incrementalCharge
          (some (1 / 100)) = true) ∧
      (historyWrites (caseWrites d coffins extras pays now) = [] ↔
        ¬ jgt (reconcileCase d coffins extras pays now).incrementalCharge
          (some (1 / 100)) = true) ∧
      (auditRow d coffins extras pays now).charge_type = "daily_storage" ∧
      (auditRow d coffins extras pays now).description =
        "Daily mortuary charge (" ++
          toFixed4 (reconcileCase d coffins extras pays now).incrementalDays ++
          " days)") ∧
    (reconcileCase dStd [] [] [] (144 / 5)).incrementalCharge = some (1 / 1000) ∧
    historyWrites (caseWrites dStd [] [] [] (144 / 5)) = [] ∧
    (reconcileCase dStd [] [] [] 1440000).incrementalCharge = some 50 ∧
    historyWrites (caseWrites dStd [] [] [] 1440000) =
      [auditRow dStd [] [] [] 1440000] := by
  refine ⟨?_, incCharge_dStd_small, ?_, incCharge_dStd_big, ?_⟩
  · intro d coffins extras pays now
    by_cases h : jgt (reconcileCase d coffins extras pays now).incrementalCharge
      (some (1 / 100)) = true
    · refine ⟨?_, ?_, rfl, rfl⟩ <;>
        · unfold historyWrites caseWrites updateWrite
          rw [h]
          simp
    · rw [Bool.not_eq_true] at h
      refine ⟨?_, ?_, rfl, rfl⟩ <;>
        · unfold historyWrites caseWrites updateWrite
          rw [h]
          simp
  · unfold historyWrites caseWrites updateWrite
    rw [jgt_dStd_small]
    simp
  · unfold historyWrites caseWrites updateWrite
    rw [jgt_dStd_big]
    simp

/-- Witness for C6 at the 50-unit case: the appended-entry equivalence and
the entry's type and day-count description. -/
theorem C6_witness :
    (historyWrites (caseWrites dStd [] [] [] 1440000) =
        [auditRow dStd [] [] [] 1440000] ↔
      jgt (reconcileCase dStd [] [] [] 1440000).incrementalCharge (some (1 / 100)) = true) ∧
    (auditRow dStd [] [] [] 1440000).charge_type = "daily_storage" ∧
    (auditRow dStd [] [] [] 1440000).description =
      "Daily mortuary charge (" ++
        toFixed4 (reconcileCase dStd [] [] [] 1440000).incrementalDays ++ " days)" :=
  ⟨(C6_audit_threshold.1 dStd [] [] [] 1440000).1,
   (C6_audit_threshold.1 dStd [] [] [] 1440000).2.2.1,
   (C6_audit_threshold.1 dStd [] [] [] 1440000).2.2.2⟩

/-! ### Claim C7 -/

/-- Claim C7: with the source tables unchanged, reconciling again at t2 the
case persisted at t1 leaves the coffin, extra-charge, embalming and payment
components exactly equal and moves the total only by the storage accrued
over the wall-clock gap between the runs, because every component is
re-summed from the source rows rather than accumulated onto the stored
total. -/
theorem C7_idempotent_modulo_audit (d : Deceased) (coffins : List CoffinRow)
    (extras : List ExtraCharge) (pays : List Payment) (t1 t2 r : ℚ)
    (hadm : d.admission ≤ t1) (h12 : t1 ≤ t2) (hrate : baseRate d = some r) :
    (reconcileCase (afterUpdate d coffins extras pays t1) coffins extras pays t2).coffinCharges =
      (reconcileCase d coffins extras pays t1).coffinCharges ∧
    (reconcileCase (afterUpdate d coffins extras pays t1) coffins extras pays t2).extraCharges =
      (reconcileCase d coffins extras pays t1).extraCharges ∧
    (reconcileCase (afterUpdate d coffins extras pays t1) coffins extras pays t2).embalming =
      (reconcileCase d coffins extras pays t1).embalming ∧
    (reconcileCase (afterUpdate d coffins extras pays t1) coffins extras pays t2).totalPayments =
      (reconcileCase d coffins extras pays t1).totalPayments ∧
    (reconcileCase (afterUpdate d coffins extras pays t1) coffins extras pays t2).newTotal =
      jadd (reconcileCase d coffins extras pays t1).newTotal
        (some (getFractionalDays t1 t2 * r)) := by
  refine ⟨rfl, rfl, rfl, rfl, ?_⟩
  show jadd (jadd (jadd (jmul (some (getFractionalDays d.admission t2)) (baseRate d))
      (coffinTotal d.cur coffins)) (extraTotal d.deceased_id extras)) d.embalming =
    jadd (jadd (jadd (jadd (jmul (some (getFractionalDays d.admission t1)) (baseRate d))
      (coffinTotal d.cur coffins)) (extraTotal d.deceased_id extras)) d.embalming)
      (some (getFractionalDays t1 t2 * r))
  rw [hrate, getFractionalDays_split d.admission t1 t2 hadm h12]
  rcases coffinTotal d.cur coffins with _ | c <;>
    rcases extraTotal d.deceased_id extras with _ | e <;>
      rcases d.embalming with _ | em <;>
        simp [jmul, jadd] <;> ring

/-- Witness for C7: reconciling dStd again one day later moves the total by
exactly one day of storage at rate 3000 and leaves every other component
unchanged. -/
theorem C7_witness :
    (reconcileCase (afterUpdate dStd [] [] [] 86400000) [] [] [] 172800000).totalPayments =
      (reconcileCase dStd [] [] [] 86400000).totalPayments ∧
    (reconcileCase (afterUpdate dStd [] [] [] 86400000) [] [] [] 172800000).newTotal =
      jadd (reconcileCase dStd [] [] [] 86400000).newTotal
        (some (getFractionalDays 86400000 172800000 * 3000)) :=
  ⟨(C7_idempotent_modulo_audit dStd [] [] [] 86400000 172800000 3000
      (by norm_num [Deceased.admission, dStd]) (by norm_num) baseRate_dStd).2.2.2.1,
   (C7_idempotent_modulo_audit dStd [] [] [] 86400000 172800000 3000
      (by norm_num [Deceased.admission, dStd]) (by norm_num) baseRate_dStd).2.2.2.2⟩

/-! ### Claim C8 -/

/-- Counterexample to C8: converting the 1300 KES coffin price for a USD
case with a stored exchange rate of 0 neither fails nor skips the
component — the conversion is computed with the substitute default rate 130
and contributes 10 to the coffin total. -/
theorem C8_counterexample :
    rate0Coffin.exchange_rate = some 0 ∧
    coffinTotal "USD" [rate0Coffin] = some 10 := by
  refine ⟨rfl, ?_⟩
  simp [coffinTotal, coffinPrice, rate0Coffin, CoffinRow.exRate, CoffinRow.qty,
    parseFloat, jdiv, jmul, jadd]
  norm_num

/-- Claim C8 amended: there is no InvalidRate failure and no component is
skipped: the expression exchange_rate || 130 replaces a missing or zero
rate with the default 130 and the conversion proceeds, while a nonzero
(including negative) rate is used as-is. -/
theorem C8_amended :
    (∀ c : CoffinRow, c.exchange_rate = none → c.exRate = 130) ∧
    (∀ c : CoffinRow, c.exchange_rate = some 0 → c.exRate = 130) ∧
    (∀ (c : CoffinRow) (r : ℚ), c.exchange_rate = some r → r ≠ 0 → c.exRate = r) ∧
    coffinTotal "USD" [negRateCoffin] = some (-10) := by
  refine ⟨?_, ?_, ?_, ?_⟩
  · intro c h
    unfold CoffinRow.exRate
    rw [h]
  · intro c h
    unfold CoffinRow.exRate
    rw [h]
    simp
  · intro c r h hr
    unfold CoffinRow.exRate
    rw [h]
    simp [hr]
  · simp [coffinTotal, coffinPrice, negRateCoffin, rate0Coffin, CoffinRow.exRate,
      CoffinRow.qty, parseFloat, jdiv, jmul, jadd]
    norm_num

/-- Witness for C8: the default on a missing rate, the default on a zero
rate, a negative rate used as-is, and the negative-rate conversion result. -/
theorem C8_witness :
    rateNoneCoffin.exRate = 130 ∧
    rate0Coffin.exRate = 130 ∧
    negRateCoffin.exRate = -130 ∧
    coffinTotal "USD" [negRateCoffin] = some (-10) :=
  ⟨C8_amended.1 rateNoneCoffin rfl,
   C8_amended.2.1 rate0Coffin rfl,
   C8_amended.2.2.1 negRateCoffin (-130) rfl (by norm_num),
   C8_amended.2.2.2⟩

/-! ### Claim C9 -/

theorem extraRowsFor_badAmountRow :
    extraRowsFor "A" [badAmountRow] = [badAmountRow] := rfl

theorem parseFloatStr_abc : parseFloatStr "abc" = none := rfl

theorem extraTotal_badAmountRow : extraTotal "A" [badAmountRow] = none := by
  unfold extraTotal
  rw [extraRowsFor_badAmountRow]
  simp [badAmountRow, jsOr, JsVal.truthy, parseFloat, parseFloatStr_abc, jadd]

/-- Counterexample to C9: a single extra-charge row whose stored amount is
the non-numeric string abc is parsed to NaN, and the NaN propagates so that
the case's totalCharge and balance are not numeric. -/
theorem C9_counterexample :
    parseFloat (jsOr badAmountRow.amount (.vnum 0)) = none ∧
    (reconcileCase dStd [] [badAmountRow] [] 0).newTotal = none ∧
    (reconcileCase dStd [] [badAmountRow] [] 0).balance = none := by
  refine ⟨rfl, ?_, ?_⟩
  · show jadd (jadd (jadd (jmul (some (getFractionalDays dStd.admission 0)) (baseRate dStd))
        (coffinTotal dStd.cur [])) (extraTotal "A" [badAmountRow])) dStd.embalming = none
    rw [extraTotal_badAmountRow, jadd_none_right, jadd_none_left]
  · show jsub (jadd (jadd (jadd (jmul (some (getFractionalDays dStd.admission 0)) (baseRate dStd))
        (coffinTotal dStd.cur [])) (extraTotal "A" [badAmountRow])) dStd.embalming)
        (payTotal "A" []) = none
    rw [extraTotal_badAmountRow, jadd_none_right, jadd_none_left, jsub_none_left]

/-- Claim C9 amended: a missing (null or empty) amount is coerced to 0 by
the || 0 guard and reconciliation stays numeric, but a non-numeric string
amount parses to NaN, which propagates into the case's totalCharge and
balance instead of being treated as 0. -/
theorem C9_amended :
    (∀ e : ExtraCharge, e.amount = .vnull → parseFloat (jsOr e.amount (.vnum 0)) = some 0) ∧
    (∀ e : ExtraCharge, e.amount = .vstr "" → parseFloat (jsOr e.amount (.vnum 0)) = some 0) ∧
    (∀ p : Payment, p.amount = .vnull → parseFloat (jsOr p.amount (.vnum 0)) = some 0) ∧
    (∀ d : Deceased, d.embalming_cost = .vnull → d.embalming = some 0) ∧
    (reconcileCase dStd [] [badAmountRow] [] 0).newTotal = none := by
  refine ⟨?_, ?_, ?_, ?_, ?_⟩
  · intro e h
    rw [h]
    rfl
  · intro e h
    rw [h]
    rfl
  · intro p h
    rw [h]
    rfl
  · intro d h
    unfold Deceased.embalming
    rw [h]
    rfl
  · show jadd (jadd (jadd (jmul (some (getFractionalDays dStd.admission 0)) (baseRate dStd))
        (coffinTotal dStd.cur [])) (extraTotal "A" [badAmountRow])) dStd.embalming = none
    rw [extraTotal_badAmountRow, jadd_none_right, jadd_none_left]

/-- Witness for C9: the null-amount coercions at concrete rows together with
the NaN total of the abc-amount case. -/
theorem C9_witness :
    parseFloat (jsOr (ExtraCharge.amount ⟨"A", .vnull, some "pending"⟩) (.vnum 0)) = some 0 ∧
    parseFloat (jsOr (Payment.amount ⟨"A", .vnull⟩) (.vnum 0)) = some 0 ∧
    dStd.embalming = some 0 ∧
    (reconcileCase dStd [] [badAmountRow] [] 0).newTotal = none :=
  ⟨C9_amended.1 ⟨"A", .vnull, some "pending"⟩ rfl,
   C9_amended.2.2.1 ⟨"A", .vnull⟩ rfl,
   C9_amended.2.2.2.1 dStd rfl,
   C9_amended.2.2.2.2⟩

end Billing
